/-
Verification of the AutoVid narrated-video pipeline (src/server/AutoVid.py)
against its natural-language specification.

The Python code is shallowly embedded: every externally-visible effect of an
external tool or library call (TTS engines, ffmpeg/ffprobe, HTTP downloads,
the filesystem) is a parameter of the embedded function, and the embedded
function reproduces the Python control flow over those parameters.  File
contents are abstracted to their size in bytes (the code only ever checks
`os.path.exists` and `os.path.getsize(...) > 0`); durations are rationals.
-/
import Mathlib

namespace AutoVid

/-! ## File model

The pipeline observes a file only through `os.path.exists(p)` and
`os.path.getsize(p) > 0`, so a file is modelled by `Option Nat`:
`none` is "no file at the path", `some n` is "a file of `n` bytes". -/

/-- The verification every TTS branch of `generate_speech` performs:
`os.path.exists(output_path) and os.path.getsize(output_path) > 0`. -/
def fileOk : Option Nat → Bool
  | none => false
  | some n => decide (0 < n)

/-! ## Speech synthesis (`generate_speech`, lines 1243-1310, and
`generate_speech_elevenlabs`, lines 1177-1241)

A single backend attempt is abstracted by what the external engine did to
the file at `output_path` before control returned to `generate_speech`:
either the engine's body ran to completion leaving file state `f`, or it
raised an exception leaving file state `f` (an engine that raised before
touching the path leaves `f` equal to the previous state). -/

inductive EngineOutcome where
  | completed (f : Option Nat)
  | raised (f : Option Nat)
  deriving DecidableEq, Repr

/-- One configured backend: whether it is available (library importable,
client initialised) and what its raw attempt does to the output file. -/
structure EngineSpec where
  avail : Bool
  outcome : EngineOutcome
  deriving DecidableEq, Repr

/-- `generate_speech_elevenlabs` (lines 1177-1241): returns `False` when the
library or client is unavailable; otherwise writes the stream, then returns
the exists-and-non-empty verification.  On any failure path it leaves the
file as the engine left it — there is no deletion in this function. -/
def generate_speech_elevenlabs (s : Option Nat) (e : EngineSpec) :
    Bool × Option Nat :=
  if e.avail then
    match e.outcome with
    | .completed f => (fileOk f, f)
    | .raised f => (false, f)
  else (false, s)

/-- The pyttsx3 branch of `generate_speech` (lines 1265-1287): on a
completed run whose file fails verification it deletes the leftover file
(`if os.path.exists(output_path): os.remove(output_path)`); on an exception
it deletes nothing. -/
def pyttsx3_attempt (s : Option Nat) (e : EngineSpec) : Bool × Option Nat :=
  if e.avail then
    match e.outcome with
    | .completed f => if fileOk f then (true, f) else (false, none)
    | .raised f => (false, f)
  else (false, s)

/-- The gTTS branch of `generate_speech` (lines 1290-1307): identical
structure to the pyttsx3 branch, including the deletion of an empty file. -/
def gtts_attempt (s : Option Nat) (e : EngineSpec) : Bool × Option Nat :=
  if e.avail then
    match e.outcome with
    | .completed f => if fileOk f then (true, f) else (false, none)
    | .raised f => (false, f)
  else (false, s)

inductive Engine where
  | elevenlabs
  | pyttsx3
  | gtts
  deriving DecidableEq, Repr

/-- Observable trace of one `generate_speech` call. -/
structure SpeechRun where
  /-- the boolean `generate_speech` returns -/
  result : Bool
  /-- final state of the file at `output_path` -/
  file : Option Nat
  /-- the engine whose attempt returned the success, if any -/
  engineUsed : Option Engine
  /-- the engines whose attempt was actually invoked, in invocation order -/
  attempted : List Engine
  /-- file state at the moment the pyttsx3 attempt starts
  (`none` when pyttsx3 is never attempted) -/
  fileAtPyttsx3Entry : Option (Option Nat)
  /-- file state at the moment the gTTS attempt starts -/
  fileAtGttsEntry : Option (Option Nat)
  deriving DecidableEq, Repr

/-- `generate_speech` (lines 1243-1310): tries ElevenLabs (guarded by
`ELEVENLABS_AVAILABLE and self.elevenlabs_client`), then pyttsx3 (guarded by
`PYTTSX3_AVAILABLE`), then gTTS (guarded by `GTTS_AVAILABLE`), returning
`True` at the first branch whose verification passes and `False` after the
last branch otherwise. -/
def generate_speech (s0 : Option Nat) (ee ep eg : EngineSpec) : SpeechRun :=
  if ee.avail then
    let r1 := generate_speech_elevenlabs s0 ee
    if r1.1 then
      ⟨true, r1.2, some .elevenlabs, [.elevenlabs], none, none⟩
    else
      speechAfterEleven r1.2 ep eg [.elevenlabs]
  else
    speechAfterEleven s0 ep eg []
where
  /-- the pyttsx3-then-gTTS tail of `generate_speech` -/
  speechAfterEleven (s1 : Option Nat) (ep eg : EngineSpec)
      (att : List Engine) : SpeechRun :=
    if ep.avail then
      let r2 := pyttsx3_attempt s1 ep
      if r2.1 then
        ⟨true, r2.2, some .pyttsx3, att ++ [.pyttsx3], some s1, none⟩
      else
        speechAfterPy r2.2 eg (att ++ [.pyttsx3]) (some s1)
    else
      speechAfterPy s1 eg att none
  /-- the gTTS tail of `generate_speech` -/
  speechAfterPy (s2 : Option Nat) (eg : EngineSpec) (att : List Engine)
      (pyEntry : Option (Option Nat)) : SpeechRun :=
    if eg.avail then
      let r3 := gtts_attempt s2 eg
      if r3.1 then
        ⟨true, r3.2, some .gtts, att ++ [.gtts], pyEntry, some s2⟩
      else
        ⟨false, r3.2, none, att ++ [.gtts], pyEntry, some s2⟩
    else
      ⟨false, s2, none, att, pyEntry, none⟩

/-- Specification-side predicate (refinement target, from the spec's words):
an attempt is a verified success when the backend is available and its run
completed leaving a file that exists and is non-empty. -/
def verifiedSuccess (e : EngineSpec) : Bool :=
  e.avail && match e.outcome with
    | .completed f => fileOk f
    | .raised _ => false

/-! ## Audio probing (`get_audio_duration`, lines 1312-1395)

What the external probe produced is abstracted into one of four outcomes:
the ffprobe JSON strategy yielded a duration; the JSON strategy failed but
the ffmpeg-stderr regex `Duration: (\d+):(\d+):(\d+\.\d+)` matched; both
failed; or an exception escaped into the enclosing `try`. -/

inductive ProbeOutcome where
  | jsonDuration (d : ℚ)
  | regexDuration (hh mm : ℕ) (ss : ℚ)
  | bothFailed
  | raisedException
  deriving DecidableEq, Repr

/-- `get_audio_duration` (lines 1312-1395): returns `None` when ffmpeg is
unavailable; otherwise returns the JSON duration, else the regex duration
converted with `h*3600 + m*60 + s`, else the default `30.0`; the
catch-all also returns `30.0`. -/
def get_audio_duration (ffmpeg_available : Bool) (o : ProbeOutcome) :
    Option ℚ :=
  if ffmpeg_available then
    match o with
    | .jsonDuration d => some d
    | .regexDuration hh mm ss => some ((hh : ℚ) * 3600 + (mm : ℚ) * 60 + ss)
    | .bothFailed => some 30
    | .raisedException => some 30
  else none

/-! ## Clip acquisition (`download_video`, lines 832-872, and the download
loop of `create_video_with_narration`, lines 1003-1021)

A clip source is either a bare URL string or a dict carrying a `url` key
(line 1008 / line 845).  Download success is an oracle on the URL. -/

inductive ClipSource where
  | bare (url : String)
  | record (url : String)
  deriving DecidableEq, Repr

/-- The URL extraction performed at lines 1008-1011 (and again at lines
845-846 inside `download_video`): a dict with a `url` key yields that
value, anything else is assumed to already be the URL. -/
def extract_url : ClipSource → String
  | .bare u => u
  | .record u => u

/-- `download_video` (lines 832-872): extracts the URL, streams it to disk,
and reports success; `dl` abstracts whether the request and the
non-empty-file verification succeed for a given URL. -/
def download_video (dl : String → Bool) (src : ClipSource) : Bool :=
  dl (extract_url src)

/-- The download loop (lines 1006-1015): the `i`-th source is fetched to
`download_i.mp4` and the path is appended on success; a failure is skipped
without aborting the loop.  A path is modelled by its index `i`. -/
def downloadPhase (dl : String → Bool) : List ClipSource → ℕ → List ℕ
  | [], _ => []
  | s :: rest, i =>
    if download_video dl s then i :: downloadPhase dl rest (i + 1)
    else downloadPhase dl rest (i + 1)

/-! ## Result paths

The distinct output files `create_video_with_narration` can hand back:
the muxed narrated video `output_path`, and the four subtitle variants
(`_subtitled`, `_sequential`, `_caption`, `_simple_subs`). -/

inductive VPath where
  | output
  | subtitled
  | sequential
  | caption
  | simpleSubs
  deriving DecidableEq, Repr

/-- What a guarded ffmpeg invocation (`subprocess.run(..., check=True)`
followed by an `os.path.exists` check) did. -/
inductive CmdOutcome where
  | completedExists
  | completedMissing
  | procError
  | otherError
  deriving DecidableEq, Repr

/-- `burn_subtitles` (lines 1761-1857), called in the pipeline with
`video_path = output_path` (the muxed video, `video`) and the `_subtitled`
path as destination (`out`).  Returns `none` when an input file is missing
or the primary run completes without producing the output; returns `out`
when the primary run (or, after a process error and a successful ASS→SRT
conversion, the alternative run) produces the output; returns the input
`video` unchanged on every other failure path. -/
def burn_subtitles (video out : VPath) (inputsExist : Bool)
    (primary : CmdOutcome) (srtExists : Bool) (alt : CmdOutcome) :
    Option VPath :=
  if inputsExist then
    match primary with
    | .completedExists => some out
    | .completedMissing => none
    | .procError =>
      if srtExists then
        match alt with
        | .completedExists => some out
        | _ => some video
      else some video
    | .otherError => some video
  else none

/-! ## The orchestrator (`create_video_with_narration`, lines 962-1175) -/

/-- All external nondeterminism of one `create_video_with_narration` run. -/
structure Env where
  ffmpeg_available : Bool
  video_sources : List ClipSource
  /-- the three TTS backends, as consumed by `generate_speech` -/
  ee : EngineSpec
  ep : EngineSpec
  eg : EngineSpec
  /-- what the duration probe on `narration.mp3` yields -/
  probe : ProbeOutcome
  /-- download success per URL -/
  dl : String → Bool
  /-- does the unguarded script-file write at lines 1024-1026 raise?
  (if so the catch-all at line 1163 returns `None`) -/
  scriptWriteRaises : Bool
  /-- `process_video` success for the clip at each position of the
  downloaded list -/
  proc : ℕ → Bool
  /-- the concat run (lines 1057-1073) succeeds -/
  concatOk : Bool
  /-- the mux run (lines 1075-1092) succeeds -/
  muxOk : Bool
  /-- a subtitle file was produced and exists (line 1113's
  `subtitle_path and os.path.exists(subtitle_path)`) -/
  subFileReady : Bool
  /-- primary burn ffmpeg run outcome inside `burn_subtitles` -/
  burnPrimary : CmdOutcome
  /-- the converted `.srt` exists (line 1825) -/
  srtExists : Bool
  /-- alternative burn ffmpeg run outcome inside `burn_subtitles` -/
  burnAlt : CmdOutcome
  /-- `create_sequential_captions` returned a path that exists (line 1128) -/
  seqOk : Bool
  /-- `create_caption_overlay` returned a path that exists (line 1138) -/
  capOk : Bool
  /-- `create_hardcoded_subtitles` returned a path that exists (line 1150) -/
  hardOk : Bool

/-- Observable trace of one `create_video_with_narration` run. -/
structure RunResult where
  /-- the returned value: a path, or `None` -/
  result : Option VPath := none
  /-- line 987 (`tempfile.mkdtemp()`) was reached -/
  tempDirCreated : Bool := false
  /-- the `finally` cleanup (lines 1169-1175) ran -/
  cleanupRan : Bool := false
  /-- indices of the successfully downloaded sources, in append order -/
  downloaded : List ℕ := []
  /-- the denominator `clip_count` of the division at line 1031, when
  that line is executed -/
  clipCountUsed : Option ℕ := none
  /-- the value `clip_duration` computed at line 1031 -/
  clipDurationUsed : Option ℚ := none
  /-- the `target_duration` argument of each `process_video` call, in
  call order (line 1039) -/
  clipTargets : List ℚ := []
  /-- how many clips survived `process_video` -/
  processedCount : ℕ := 0
  /-- the concat ffmpeg run (line 1069) was invoked -/
  concatAttempted : Bool := false
  /-- the mux ffmpeg run (line 1091) was invoked and succeeded -/
  muxPerformed : Bool := false

/-- The subtitle phase (lines 1094-1154): with a subtitle file, try
`burn_subtitles`, then `create_sequential_captions`, then
`create_caption_overlay`; without one, try `create_hardcoded_subtitles`;
keep `output_path` when everything fails. -/
def subtitlePhase (env : Env) : VPath :=
  if env.subFileReady then
    let r := burn_subtitles .output .subtitled true env.burnPrimary
      env.srtExists env.burnAlt
    match r with
    | some p =>
      if p ≠ VPath.output then p
      else seqFallback env
    | none => seqFallback env
  else
    if env.hardOk then .simpleSubs else .output
where
  /-- lines 1122-1142: sequential captions, then the fixed caption -/
  seqFallback (env : Env) : VPath :=
    if env.seqOk then .sequential
    else if env.capOk then .caption
    else .output

/-- The local `downloaded_video_paths` built by the loop at lines
1005-1015. -/
def downloadedOf (env : Env) : List ℕ :=
  downloadPhase env.dl env.video_sources 0

/-- The local `clip_count` at line 1030. -/
def clipCountOf (env : Env) : ℕ :=
  (downloadedOf env).length

/-- The local `clip_duration = duration / clip_count` at line 1031. -/
def clipDurationOf (env : Env) (duration : ℚ) : ℚ :=
  duration / (clipCountOf env : ℚ)

/-- The local `processed_videos` built by the loop at lines 1035-1044:
the positions (in the downloaded list) whose `process_video` call
succeeded, in order. -/
def processedOf (env : Env) : List ℕ :=
  (List.range (clipCountOf env)).filter env.proc

/-- `create_video_with_narration` (lines 962-1175).  The two guards before
the temp directory is created return directly; every later exit — the
expected fatal returns, the catch-all at line 1163, and the success return
at line 1156 — passes through the `finally` at lines 1169-1175, so every
branch below records `cleanupRan := true`. -/
def create_video_with_narration (env : Env) : RunResult :=
  if env.video_sources = [] then {}
  else if ¬env.ffmpeg_available then {}
  else
    -- line 987: temp_dir = tempfile.mkdtemp()
    if ¬(generate_speech none env.ee env.ep env.eg).result then
      { tempDirCreated := true, cleanupRan := true }
    else
      match get_audio_duration true env.probe with
      | none => { tempDirCreated := true, cleanupRan := true }
      | some duration =>
        -- line 998: `if not duration` — 0.0 is falsy
        if duration = 0 then { tempDirCreated := true, cleanupRan := true }
        else if downloadedOf env = [] then
          { tempDirCreated := true, cleanupRan := true,
            downloaded := downloadedOf env }
        else if env.scriptWriteRaises then
          { tempDirCreated := true, cleanupRan := true,
            downloaded := downloadedOf env }
        else if processedOf env = [] then
          { tempDirCreated := true, cleanupRan := true,
            downloaded := downloadedOf env,
            clipCountUsed := some (clipCountOf env),
            clipDurationUsed := some (clipDurationOf env duration),
            clipTargets := (downloadedOf env).map
              fun _ => clipDurationOf env duration }
        else if ¬env.concatOk then
          { tempDirCreated := true, cleanupRan := true,
            downloaded := downloadedOf env,
            clipCountUsed := some (clipCountOf env),
            clipDurationUsed := some (clipDurationOf env duration),
            clipTargets := (downloadedOf env).map
              fun _ => clipDurationOf env duration,
            processedCount := (processedOf env).length,
            concatAttempted := true }
        else if ¬env.muxOk then
          { tempDirCreated := true, cleanupRan := true,
            downloaded := downloadedOf env,
            clipCountUsed := some (clipCountOf env),
            clipDurationUsed := some (clipDurationOf env duration),
            clipTargets := (downloadedOf env).map
              fun _ => clipDurationOf env duration,
            processedCount := (processedOf env).length,
            concatAttempted := true }
        else
          { result := some (subtitlePhase env),
            tempDirCreated := true, cleanupRan := true,
            downloaded := downloadedOf env,
            clipCountUsed := some (clipCountOf env),
            clipDurationUsed := some (clipDurationOf env duration),
            clipTargets := (downloadedOf env).map
              fun _ => clipDurationOf env duration,
            processedCount := (processedOf env).length,
            concatAttempted := true, muxPerformed := true }

/-! ## The mux command (lines 1079-1089) and its external semantics -/

/-- The `final_cmd` argument list built at lines 1079-1089. -/
def final_cmd (ffmpeg_path concat_output audio_path output_path : String) :
    List String :=
  [ffmpeg_path,
   "-i", concat_output,
   "-i", audio_path,
   "-c:v", "copy",
   "-c:a", "aac",
   "-map", "0:v:0",
   "-map", "1:a:0",
   "-shortest",
   "-y", output_path]

/-- The value following the first occurrence of `flag` in an argument
list. -/
def argAfter (flag : String) : List String → Option String
  | [] => none
  | [_] => none
  | a :: b :: rest => if a = flag then some b else argAfter flag (b :: rest)

/-- Modelled from the spec: the external transcoder's mux semantics.  The
transcoder itself is outside the repository; per §6, muxing is invoked
"with 'shortest stream' semantics", so when the `-shortest` flag is passed
the output duration is the minimum of the two input stream durations. -/
def muxOutputDuration (videoDur narrationDur : ℚ) : ℚ :=
  min videoDur narrationDur

/-! ## The fixed caption (`create_caption_overlay`, lines 2414-2469)

Python strings are modelled as `List Char`; `len`, slicing and `+` map to
`List.length`, `List.take` and `List.append`. -/

/-- The truncation at lines 2430-2432: a script longer than 120 characters
is replaced by its first 117 characters followed by `"..."`. -/
def truncateCaption (script_text : List Char) : List Char :=
  if 120 < script_text.length then
    script_text.take 117 ++ ['.', '.', '.']
  else script_text

/-! ## Concrete environments, used to evaluate the theorems on closed
inputs -/

/-- A run in which every external step succeeds and the subtitle file is
never produced (so the hardcoded-subtitle branch fails too). -/
def happyEnv : Env where
  ffmpeg_available := true
  video_sources := [.bare "u0", .record "u1"]
  ee := ⟨true, .completed (some 9)⟩
  ep := ⟨false, .raised none⟩
  eg := ⟨false, .raised none⟩
  probe := .jsonDuration 30
  dl := fun _ => true
  scriptWriteRaises := false
  proc := fun _ => true
  concatOk := true
  muxOk := true
  subFileReady := false
  burnPrimary := .procError
  srtExists := false
  burnAlt := .procError
  seqOk := false
  capOk := false
  hardOk := false

/-- A run identical to `happyEnv` except that every clip fails
`process_video`. -/
def noProcessedEnv : Env :=
  { happyEnv with proc := fun _ => false }

/-- A run identical to `happyEnv` except that a subtitle file exists and
every subtitle strategy fails. -/
def subtitlesFailEnv : Env :=
  { happyEnv with subFileReady := true }

/-! # Theorems -/

/-! ## Helper lemmas -/

/-- `burn_subtitles` can only produce the new subtitled file, the untouched
input video, or `None`. -/
lemma burn_subtitles_cases (video out : VPath) (inputsExist : Bool)
    (primary : CmdOutcome) (srtExists : Bool) (alt : CmdOutcome) :
    burn_subtitles video out inputsExist primary srtExists alt = some out ∨
    burn_subtitles video out inputsExist primary srtExists alt =
      some video ∨
    burn_subtitles video out inputsExist primary srtExists alt = none := by
  unfold burn_subtitles
  by_cases h : inputsExist = true
  · rw [if_pos h]
    cases primary
    · simp
    · simp
    · split_ifs
      · cases alt <;> simp
      · simp
    · simp
  · rw [if_neg h]
    simp

/-- Membership in the download result: index `k` is collected exactly when
it addresses a source whose download succeeds. -/
lemma downloadPhase_mem (dl : String → Bool) :
    ∀ (l : List ClipSource) (i k : ℕ),
      k ∈ downloadPhase dl l i ↔
        ∃ j, ∃ hj : j < l.length, k = i + j ∧
          download_video dl (l.get ⟨j, hj⟩) = true := by
  intro l
  induction l with
  | nil => intro i k; simp [downloadPhase]
  | cons s rest ih =>
    intro i k
    unfold downloadPhase
    by_cases h : download_video dl s = true
    · rw [if_pos h]
      simp only [List.mem_cons, ih (i + 1)]
      constructor
      · rintro (rfl | ⟨j, hj, rfl, hdl⟩)
        · exact ⟨0, by simp, by omega, h⟩
        · exact ⟨j + 1, by simpa using hj, by omega, hdl⟩
      · rintro ⟨j, hj, rfl, hdl⟩
        cases j with
        | zero => left; omega
        | succ j =>
          right
          exact ⟨j, by simp only [List.length_cons] at hj; omega, by omega,
            by simpa using hdl⟩
    · rw [if_neg h]
      rw [ih (i + 1)]
      constructor
      · rintro ⟨j, hj, rfl, hdl⟩
        exact ⟨j + 1, by simpa using hj, by omega, hdl⟩
      · rintro ⟨j, hj, rfl, hdl⟩
        cases j with
        | zero => exact absurd hdl (by simpa using h)
        | succ j =>
          exact ⟨j, by simp only [List.length_cons] at hj; omega, by omega,
            by simpa using hdl⟩

/-- Every collected index is at least the loop counter. -/
lemma downloadPhase_lower (dl : String → Bool) (l : List ClipSource)
    (i k : ℕ) (hk : k ∈ downloadPhase dl l i) : i ≤ k := by
  obtain ⟨j, _, rfl, -⟩ := (downloadPhase_mem dl l i k).mp hk
  omega

/-- The download result is strictly increasing: it lists the successful
sources in request order. -/
lemma downloadPhase_sorted (dl : String → Bool) :
    ∀ (l : List ClipSource) (i : ℕ),
      List.Pairwise (· < ·) (downloadPhase dl l i) := by
  intro l
  induction l with
  | nil => intro i; simp [downloadPhase]
  | cons s rest ih =>
    intro i
    unfold downloadPhase
    by_cases h : download_video dl s = true
    · rw [if_pos h]
      refine List.Pairwise.cons (fun k hk => ?_) (ih (i + 1))
      have := downloadPhase_lower dl rest (i + 1) k hk
      omega
    · rw [if_neg h]
      exact ih (i + 1)

/-- Branch analysis of one `create_video_with_narration` run: the cleanup
and temp-directory bookkeeping, the guard before concatenation, the
denominator of the timeline division, and the per-clip targets. -/
lemma pipeline_run_cases (env : Env) :
    (create_video_with_narration env).cleanupRan =
      (create_video_with_narration env).tempDirCreated ∧
    (env.video_sources ≠ [] → env.ffmpeg_available = true →
      (create_video_with_narration env).tempDirCreated = true) ∧
    ((create_video_with_narration env).muxPerformed = true →
      (create_video_with_narration env).result =
        some (subtitlePhase env)) ∧
    ((create_video_with_narration env).concatAttempted = true →
      1 ≤ (create_video_with_narration env).processedCount) ∧
    (∀ n, (create_video_with_narration env).clipCountUsed = some n →
      1 ≤ n ∧ (create_video_with_narration env).downloaded.length = n) ∧
    ((create_video_with_narration env).processedCount = 0 →
      (create_video_with_narration env).result = none ∧
      (create_video_with_narration env).concatAttempted = false) ∧
    (∀ D, get_audio_duration true env.probe = some D →
      ∀ n, (create_video_with_narration env).clipCountUsed = some n →
      (create_video_with_narration env).clipTargets =
        (create_video_with_narration env).downloaded.map
          fun _ => D / (n : ℚ)) := by
  obtain ⟨r, hr⟩ : ∃ r, r = create_video_with_narration env := ⟨_, rfl⟩
  rw [← hr]
  unfold create_video_with_narration at hr
  repeat' split at hr
  all_goals subst hr
  all_goals
    simp_all [clipDurationOf, clipCountOf, List.length_pos,
      Nat.one_le_iff_ne_zero, List.length_eq_zero]

/-- Claim C10: in the fixed-caption fallback, a script longer than 120
characters is drawn as exactly its first 117 characters followed by
`"..."` (so the caption never exceeds 120 characters), and a script of at
most 120 characters is drawn unchanged. -/
theorem caption_truncation_spec (s : List Char) :
    (120 < s.length →
      truncateCaption s = s.take 117 ++ ['.', '.', '.'] ∧
      (truncateCaption s).length = 120) ∧
    (s.length ≤ 120 → truncateCaption s = s) ∧
    (truncateCaption s).length ≤ 120 := by
  unfold truncateCaption
  refine ⟨fun h => ?_, fun h => ?_, ?_⟩
  · rw [if_pos h]
    refine ⟨rfl, ?_⟩
    simp only [List.length_append, List.length_take, List.length_cons,
      List.length_nil]
    omega
  · rw [if_neg (by omega)]
  · split
    · simp only [List.length_append, List.length_take, List.length_cons,
        List.length_nil]
      omega
    · omega

/-- Closed instance of `caption_truncation_spec` at a 121-character
script. -/
theorem caption_truncation_spec_holds :
    120 < (List.replicate 121 'a').length ∧
    (truncateCaption (List.replicate 121 'a')).length = 120 ∧
    truncateCaption (List.replicate 13 'b') = List.replicate 13 'b' :=
  ⟨by simp,
   ((caption_truncation_spec (List.replicate 121 'a')).1 (by simp)).2,
   (caption_truncation_spec (List.replicate 13 'b')).2.1 (by simp)⟩

/-- Claim C3, counterexample: when ffmpeg is unavailable neither probe
strategy runs — so both "fail to yield a duration" — yet
`get_audio_duration` returns `None`, not a float and not the default
`30.0`. -/
theorem audio_duration_none_counterexample :
    get_audio_duration false .bothFailed = none := rfl

/-- Claim C3 (amended): provided ffmpeg is available,
`get_audio_duration` always returns a float, and it returns the default
`30.0` both when the two probe strategies fail and when an exception is
raised inside the probe; when ffmpeg is unavailable it returns `None`
(still without raising). -/
theorem audio_duration_total_spec (o : ProbeOutcome) :
    (get_audio_duration true o).isSome = true ∧
    get_audio_duration true .bothFailed = some 30 ∧
    get_audio_duration true .raisedException = some 30 ∧
    get_audio_duration false o = none := by
  cases o <;> simp [get_audio_duration]

/-- Claim C7: the mux command stream-copies the video (`-c:v copy`),
re-encodes the audio to AAC (`-c:a aac`) and passes `-shortest`; under the
transcoder's shortest-stream semantics the muxed duration is the minimum
of the concatenated-video duration and the narration duration. -/
theorem mux_command_spec :
    argAfter "-c:v"
      (final_cmd "ffmpeg" "concatenated.mp4" "narration.mp3" "out.mp4") =
      some "copy" ∧
    argAfter "-c:a"
      (final_cmd "ffmpeg" "concatenated.mp4" "narration.mp3" "out.mp4") =
      some "aac" ∧
    "-shortest" ∈
      final_cmd "ffmpeg" "concatenated.mp4" "narration.mp3" "out.mp4" ∧
    ∀ videoDur narrationDur : ℚ,
      muxOutputDuration videoDur narrationDur =
        min videoDur narrationDur := by
  refine ⟨by decide, by decide, by simp [final_cmd], fun _ _ => rfl⟩

/-- Claim C2: `generate_speech` tries ElevenLabs, then pyttsx3, then gTTS,
skipping unavailable backends; a backend succeeds only when its output
file exists and is non-empty (a completed run with a zero-byte or missing
file is a failure); the cascade halts at the first verified success, and
the call returns `False` exactly when no available backend achieves one. -/
theorem speech_cascade_spec (s0 : Option Nat) (ee ep eg : EngineSpec) :
    (generate_speech s0 ee ep eg).result =
      (verifiedSuccess ee || verifiedSuccess ep || verifiedSuccess eg) ∧
    (generate_speech s0 ee ep eg).engineUsed =
      (if verifiedSuccess ee then some Engine.elevenlabs
       else if verifiedSuccess ep then some Engine.pyttsx3
       else if verifiedSuccess eg then some Engine.gtts
       else none) ∧
    (generate_speech s0 ee ep eg).attempted =
      ((if ee.avail then [Engine.elevenlabs] else []) ++
        if verifiedSuccess ee then []
        else ((if ep.avail then [Engine.pyttsx3] else []) ++
          if verifiedSuccess ep then []
          else (if eg.avail then [Engine.gtts] else []))) ∧
    verifiedSuccess ⟨true, .completed (some 0)⟩ = false ∧
    verifiedSuccess ⟨true, .completed none⟩ = false := by
  obtain ⟨ea, eo⟩ := ee
  obtain ⟨pa, po⟩ := ep
  obtain ⟨ga, go⟩ := eg
  cases ea <;> cases pa <;> cases ga <;> cases eo <;> cases po <;>
    cases go <;>
      simp [generate_speech, generate_speech.speechAfterEleven,
        generate_speech.speechAfterPy, generate_speech_elevenlabs,
        pyttsx3_attempt, gtts_attempt, verifiedSuccess, fileOk] <;>
      split_ifs <;> simp_all [fileOk]

/-- Claim C8, counterexample: ElevenLabs completes leaving a zero-byte
file, which fails the exists-and-non-empty verification — yet that
zero-byte artifact is still at the output path at the moment the pyttsx3
backend is tried. -/
theorem speech_artifact_counterexample :
    (generate_speech none ⟨true, .completed (some 0)⟩
        ⟨true, .raised (some 0)⟩ ⟨false, .raised none⟩).engineUsed ≠
      some Engine.elevenlabs ∧
    Engine.pyttsx3 ∈
      (generate_speech none ⟨true, .completed (some 0)⟩
        ⟨true, .raised (some 0)⟩ ⟨false, .raised none⟩).attempted ∧
    (generate_speech none ⟨true, .completed (some 0)⟩
        ⟨true, .raised (some 0)⟩ ⟨false, .raised none⟩).fileAtPyttsx3Entry =
      some (some 0) := by decide

/-- Claim C8 (amended): a pyttsx3 or gTTS attempt that completes but fails
the exists-and-non-empty verification deletes the leftover artifact, so
the next backend starts with no file at the output path; an ElevenLabs
attempt that fails the same verification leaves its artifact in place. -/
theorem speech_artifact_cleanup_spec (s f : Option Nat)
    (hf : fileOk f = false) :
    (pyttsx3_attempt s ⟨true, .completed f⟩).2 = none ∧
    (gtts_attempt s ⟨true, .completed f⟩).2 = none ∧
    generate_speech_elevenlabs s ⟨true, .completed f⟩ = (false, f) ∧
    (∀ ee eg : EngineSpec, verifiedSuccess ee = false → eg.avail = true →
      (generate_speech s ee ⟨true, .completed f⟩ eg).fileAtGttsEntry =
        some none) := by
  refine ⟨by simp [pyttsx3_attempt, hf], by simp [gtts_attempt, hf],
    by simp [generate_speech_elevenlabs, hf], ?_⟩
  intro ee eg hee hg
  obtain ⟨ea, eo⟩ := ee
  cases ea <;> cases eo <;>
    simp_all [generate_speech, generate_speech.speechAfterEleven,
      generate_speech.speechAfterPy, generate_speech_elevenlabs,
      pyttsx3_attempt, verifiedSuccess, fileOk, hf, hg] <;>
    split_ifs <;> simp_all

/-- Closed instance of `speech_artifact_cleanup_spec`: pyttsx3 deletes a
zero-byte artifact before gTTS runs. -/
theorem speech_artifact_cleanup_spec_holds :
    fileOk (some 0) = false ∧
    (pyttsx3_attempt none ⟨true, .completed (some 0)⟩).2 = none ∧
    (generate_speech none ⟨false, .raised none⟩ ⟨true, .completed (some 0)⟩
        ⟨true, .completed (some 7)⟩).fileAtGttsEntry = some none :=
  ⟨by decide,
   (speech_artifact_cleanup_spec none (some 0) (by decide)).1,
   (speech_artifact_cleanup_spec none (some 0) (by decide)).2.2.2
     ⟨false, .raised none⟩ ⟨true, .completed (some 7)⟩ (by decide) rfl⟩

/-- Claim C9: the scoped temporary directory is cleaned up on every exit
path of `create_video_with_narration` — the cleanup runs exactly when the
directory was created, and any run that gets past the two pre-creation
guards does create it (and hence also cleans it up). -/
theorem temp_dir_cleanup_spec (env : Env) :
    (create_video_with_narration env).cleanupRan =
      (create_video_with_narration env).tempDirCreated ∧
    (env.video_sources ≠ [] → env.ffmpeg_available = true →
      (create_video_with_narration env).tempDirCreated = true) :=
  ⟨(pipeline_run_cases env).1, (pipeline_run_cases env).2.1⟩

/-- Closed instance of `temp_dir_cleanup_spec`: the fully successful run
creates the directory and cleans it up. -/
theorem temp_dir_cleanup_spec_holds :
    (create_video_with_narration happyEnv).tempDirCreated = true ∧
    (create_video_with_narration happyEnv).cleanupRan = true := by
  have h2 := (temp_dir_cleanup_spec happyEnv).2 (by decide) rfl
  exact ⟨h2, (temp_dir_cleanup_spec happyEnv).1.trans h2⟩

/-- Claim C6: the concat step is only ever invoked with at least one
processed clip; a run in which zero clips survive processing returns
`None` without invoking concatenation; and the denominator of the
timeline division `duration / clip_count` is always at least 1. -/
theorem concat_guard_spec (env : Env) :
    ((create_video_with_narration env).concatAttempted = true →
      1 ≤ (create_video_with_narration env).processedCount) ∧
    (∀ n, (create_video_with_narration env).clipCountUsed = some n →
      1 ≤ n) ∧
    ((create_video_with_narration env).processedCount = 0 →
      (create_video_with_narration env).result = none ∧
      (create_video_with_narration env).concatAttempted = false) :=
  ⟨(pipeline_run_cases env).2.2.2.1,
   fun n hn => ((pipeline_run_cases env).2.2.2.2.1 n hn).1,
   (pipeline_run_cases env).2.2.2.2.2.1⟩

/-- Closed instances of `concat_guard_spec`: the successful run
concatenates at least one clip, and the run where every clip fails
processing returns `None` with no concat. -/
theorem concat_guard_spec_holds :
    1 ≤ (create_video_with_narration happyEnv).processedCount ∧
    (create_video_with_narration noProcessedEnv).result = none ∧
    (create_video_with_narration noProcessedEnv).concatAttempted = false :=
  ⟨(concat_guard_spec happyEnv).1 (by decide),
   ((concat_guard_spec noProcessedEnv).2.2 (by decide)).1,
   ((concat_guard_spec noProcessedEnv).2.2 (by decide)).2⟩

/-- Claim C1: whenever the timeline division is performed — narration
duration `D`, `N` downloaded clips — every `process_video` call receives
the target duration `D / N`, there are exactly `N` such calls, and the
`N` allocated durations sum to exactly `D`. -/
theorem clip_allocation_spec (env : Env) (D : ℚ) (N : ℕ)
    (hD : get_audio_duration true env.probe = some D)
    (hN : (create_video_with_narration env).clipCountUsed = some N) :
    (create_video_with_narration env).clipTargets.length = N ∧
    (∀ t ∈ (create_video_with_narration env).clipTargets,
      t = D / (N : ℚ)) ∧
    (create_video_with_narration env).clipTargets.sum = D := by
  obtain ⟨hN1, hlen⟩ := (pipeline_run_cases env).2.2.2.2.1 N hN
  have ht := (pipeline_run_cases env).2.2.2.2.2.2 D hD N hN
  have hcast : ((N : ℚ)) ≠ 0 := Nat.cast_ne_zero.mpr (by omega)
  refine ⟨by rw [ht, List.length_map, hlen], ?_, ?_⟩
  · intro t htmem
    rw [ht] at htmem
    obtain ⟨x, -, rfl⟩ := List.mem_map.mp htmem
    rfl
  · rw [ht, List.map_const', List.sum_replicate, hlen, nsmul_eq_mul]
    field_simp

/-- Closed instance of `clip_allocation_spec`: two clips, a 30-second
narration, 15 seconds each, summing to 30. -/
theorem clip_allocation_spec_holds :
    (create_video_with_narration happyEnv).clipTargets.sum = 30 ∧
    ∀ t ∈ (create_video_with_narration happyEnv).clipTargets,
      t = 30 / ((2 : ℕ) : ℚ) :=
  ⟨(clip_allocation_spec happyEnv 30 2 rfl (by decide)).2.2,
   (clip_allocation_spec happyEnv 30 2 rfl (by decide)).2.1⟩

/-- Claim C4: when a subtitle file exists but the burn (with its internal
format-fallback), the sequential captions and the fixed caption overlay
all fail, `create_video_with_narration` still returns successfully, and
the path it returns is the muxed narrated video, unchanged. -/
theorem subtitles_all_fail_spec (env : Env)
    (hmux : (create_video_with_narration env).muxPerformed = true)
    (hsub : env.subFileReady = true)
    (hburn : burn_subtitles VPath.output VPath.subtitled true
      env.burnPrimary env.srtExists env.burnAlt ≠ some VPath.subtitled)
    (hseq : env.seqOk = false) (hcap : env.capOk = false) :
    (create_video_with_narration env).result = some VPath.output := by
  rw [(pipeline_run_cases env).2.2.1 hmux]
  rcases burn_subtitles_cases VPath.output VPath.subtitled true
      env.burnPrimary env.srtExists env.burnAlt with h | h | h
  · exact absurd h hburn
  · simp [subtitlePhase, hsub, h, subtitlePhase.seqFallback, hseq, hcap]
  · simp [subtitlePhase, hsub, h, subtitlePhase.seqFallback, hseq, hcap]

/-- Closed instance of `subtitles_all_fail_spec`: with every subtitle
strategy failing the run returns the muxed video. -/
theorem subtitles_all_fail_spec_holds :
    (create_video_with_narration subtitlesFailEnv).result =
      some VPath.output :=
  subtitles_all_fail_spec subtitlesFailEnv (by decide) rfl (by decide)
    rfl rfl

/-- Claim C5: both clip-source shapes (bare URL, record with a `url`
field) are accepted and reach the same download; a failing download only
skips its own clip — index `k` is materialized exactly when its own
download succeeds, regardless of the others; and the collected list is
strictly increasing, i.e. it preserves the original request order. -/
theorem download_batch_spec (dl : String → Bool)
    (sources : List ClipSource) :
    (∀ u : String, download_video dl (ClipSource.bare u) = dl u ∧
      download_video dl (ClipSource.record u) = dl u) ∧
    (∀ k, k ∈ downloadPhase dl sources 0 ↔
      ∃ hk : k < sources.length,
        download_video dl (sources.get ⟨k, hk⟩) = true) ∧
    List.Pairwise (· < ·) (downloadPhase dl sources 0) := by
  refine ⟨fun u => ⟨rfl, rfl⟩, fun k => ?_,
    downloadPhase_sorted dl sources 0⟩
  rw [downloadPhase_mem dl sources 0 k]
  constructor
  · rintro ⟨j, hj, rfl, hdl⟩
    exact ⟨by simpa using hj, by simpa using hdl⟩
  · rintro ⟨hk, hdl⟩
    exact ⟨k, hk, (Nat.zero_add k).symm, hdl⟩

/-- Closed instance of `download_batch_spec`: with the middle download of
three failing, indices 0 and 2 survive in order. -/
theorem download_batch_spec_holds :
    (1 ∈ downloadPhase (fun u => u ≠ "bad")
        [ClipSource.bare "a", ClipSource.record "bad",
          ClipSource.bare "c"] 0 ↔ False) ∧
    2 ∈ downloadPhase (fun u => u ≠ "bad")
        [ClipSource.bare "a", ClipSource.record "bad",
          ClipSource.bare "c"] 0 := by
  have h := download_batch_spec (fun u => u ≠ "bad")
    [ClipSource.bare "a", ClipSource.record "bad", ClipSource.bare "c"]
  constructor
  · rw [h.2.1 1]
    simp [download_video, extract_url]
  · rw [h.2.1 2]
    exact ⟨by decide, by decide⟩

end AutoVid
